import Mathlib

/-!
Verification of the configuration-synthesis, progress-reporting, summary and
exit-code logic of `ytdl.py`, a CLI front end for an external media-fetch
engine.  Every definition below is a shallow embedding of the corresponding
Python code; Python dictionaries become Lean structures or association lists,
fallible operations return `Except`, and output is modelled as the list of
strings handed to `print`.
-/

namespace Ytdl

/-- Command-line options after `argparse` parsing (function `parse_args`).
Default values mirror the `add_argument` defaults; `resolution` is `none`
when `-r` is not given; the mutually exclusive `--audio` / `--video` flags
are two booleans, of which `build_opts` only consults `audio`. -/
structure Args where
  url : String
  output : String := "./downloads"
  template : String := "%(title)s.%(ext)s"
  quiet : Bool := false
  audio : Bool := false
  video : Bool := false
  audio_format : String := "mp3"
  audio_quality : Int := 0
  resolution : Option Int := none
  allow_playlist : Bool := false
  safe_names : Bool := false
  ignore_errors : Bool := false
  embed_meta : Bool := false
  embed_thumb : Bool := false
  retries : Int := 5
  timeout : Int := 30
  concurrent : Int := 4
deriving Repr

/-- One post-processing step, a tagged dictionary in the Python source:
`FFmpegExtractAudio` carries `preferredcodec` and `preferredquality`
(the latter already stringified), the other two carry only their key. -/
inductive Postprocessor where
  | ffmpegExtractAudio (preferredcodec : String) (preferredquality : String)
  | ffmpegMetadata
  | embedThumbnail
deriving DecidableEq, Repr

/-- The engine-configuration dictionary built by `build_opts`.  The
`outtmpl` field holds the string stored under the inner `default` key;
`merge_output_format` is `none` when the key is absent (audio mode);
an absent `postprocessors` key is the empty list.  The `progress_hooks`
entry (a one-element list holding the callback) is not represented here;
the callback itself is modelled separately as `progress_hook`. -/
structure EngineConfig where
  outtmpl : String
  noplaylist : Bool
  nocheckcertificate : Bool
  restrictfilenames : Bool
  ignoreerrors : Bool
  concurrent_fragment_downloads : Int
  quiet : Bool
  no_warnings : Bool
  format : String
  merge_output_format : Option String
  postprocessors : List Postprocessor
  retries : Int
  file_access_retries : Int
  fragment_retries : Int
  socket_timeout : Int
deriving Repr

/-- Model of `os.path.expanduser` on POSIX, with the `HOME` environment
variable passed explicitly: a path equal to `~` or starting with `~/` has
the tilde replaced by `home`; other paths (including `~user` forms, which
the program never produces from its defaults) are returned unchanged. -/
def expanduser (home : String) (p : String) : String :=
  if p = "~" then home
  else if p.startsWith "~/" then home ++ p.drop 1
  else p

/-- Model of the two-argument `os.path.join` on POSIX: an absolute second
component replaces the first; otherwise the components are joined with a
single separator, without doubling one already present. -/
def joinPath (a b : String) : String :=
  if b.startsWith "/" then b
  else if a = "" ∨ a.endsWith "/" then a ++ b
  else a ++ "/" ++ b

/-- The configuration synthesizer (function `build_opts`): base fields,
then the audio/video mode branch, then the retry/timeout block appended by
`opts.update`.  Python `if args.resolution:` is false both for `None` and
for `0`, hence the explicit test against zero. -/
def build_opts (home : String) (args : Args) : EngineConfig :=
  let outtmpl := joinPath (expanduser home args.output) args.template
  let base : EngineConfig :=
    { outtmpl := outtmpl
      noplaylist := !args.allow_playlist
      nocheckcertificate := true
      restrictfilenames := args.safe_names
      ignoreerrors := args.ignore_errors
      concurrent_fragment_downloads := args.concurrent
      quiet := args.quiet
      no_warnings := args.quiet
      -- the Python dict has no format/merge/postprocessors keys yet;
      -- format is set in both branches below, the other two model
      -- absence as none / []
      format := ""
      merge_output_format := none
      postprocessors := []
      retries := 0
      file_access_retries := 0
      fragment_retries := 0
      socket_timeout := 0 }
  let branched : EngineConfig :=
    if args.audio then
      let post := [Postprocessor.ffmpegExtractAudio args.audio_format
                    (toString args.audio_quality)]
      let post := if args.embed_meta then post ++ [.ffmpegMetadata] else post
      let post := if args.embed_thumb then post ++ [.embedThumbnail] else post
      { base with format := "bestaudio/best", postprocessors := post }
    else
      let fmt :=
        match args.resolution with
        | some r =>
          if r ≠ 0 then
            "bestvideo[ext=mp4][height<=" ++ toString r ++
              "]+bestaudio[ext=m4a]/best[ext=mp4]/best"
          else
            "bestvideo[ext=mp4]+bestaudio[ext=m4a]/best[ext=mp4]/best"
        | none => "bestvideo[ext=mp4]+bestaudio[ext=m4a]/best[ext=mp4]/best"
      let cfg := { base with format := fmt, merge_output_format := some "mp4" }
      let cfg := if args.embed_meta then
          { cfg with postprocessors := cfg.postprocessors ++ [.ffmpegMetadata] }
        else cfg
      if args.embed_thumb then
        { cfg with postprocessors := cfg.postprocessors ++ [.embedThumbnail] }
      else cfg
  { branched with
      retries := args.retries
      file_access_retries := args.retries
      fragment_retries := args.retries
      socket_timeout := args.timeout }

/-! ### Progress Reporter (`progress_hook`)

The engine passes a Python dictionary.  Values the hook touches are either
strings or some other object (modelled by `PyVal.int`, enough to cover the
non-string case); a dictionary is an association list; `d.get(k, dflt)` is
lookup with a default; calling `.strip()` on a non-string raises an
`AttributeError`, so the method is embedded in `Except`. -/

/-- A Python value stored in a progress-event dictionary: a string, or a
non-string object (represented by an integer). -/
inductive PyVal where
  | str (s : String)
  | int (n : Int)
deriving DecidableEq, Repr

/-- A progress-event dictionary: an association list from keys to values. -/
def PyDict := List (String × PyVal)

/-- Python whitespace removal from both ends, `str.strip()`, on the
character list of a string. -/
def stripList (cs : List Char) : List Char :=
  ((cs.dropWhile Char.isWhitespace).reverse.dropWhile Char.isWhitespace).reverse

/-- Model of `str.strip()` with no argument. -/
def pstrip (s : String) : String := String.mk (stripList s.data)

/-- Calling `.strip()` on a dictionary value: succeeds on a string,
raises `AttributeError` on anything else. -/
def PyVal.stripMethod : PyVal → Except String String
  | .str s => .ok (pstrip s)
  | .int _ => .error "AttributeError: int object has no attribute strip"

/-- Right alignment in a field of width `w` (the `>` format spec),
padding with spaces on the left and never truncating. -/
def rjustList (w : Nat) (cs : List Char) : List Char :=
  List.replicate (w - cs.length) ' ' ++ cs

/-- String version of `rjustList`. -/
def rjust (w : Nat) (s : String) : String := String.mk (rjustList w s.data)

/-- The status line built for a `downloading` event, the f-string of the
source: carriage return, then the three stripped display fields
right-aligned to widths 6, 8 and 6. -/
def dlLine (pct spd eta : String) : String :=
  "\rDownloading: " ++ rjust 6 pct ++ "  Speed: " ++ rjust 8 spd ++
    "  ETA: " ++ rjust 6 eta

/-- What one call of the hook writes: `write s` is
`print(s, end=chr(39)+chr(39), flush=True)` — the text itself, no trailing
newline, flushed at once; `writeLn s` is a plain `print(s)`, which appends
a newline; `silent` writes nothing. -/
inductive HookOutput where
  | write (s : String)
  | writeLn (s : String)
  | silent
deriving DecidableEq, Repr

/-- The progress callback (`progress_hook`): on a `downloading` event it
strips the three pre-formatted display fields (defaulting a missing one to
the empty string) and writes one carriage-return-prefixed line with the
fields right-aligned to widths 6, 8 and 6; on a `finished` event it writes
a newline and the fixed transition message; otherwise nothing.  The result
is an `Except` because `.strip()` raises on a non-string value. -/
def progress_hook (d : PyDict) : Except String HookOutput :=
  if List.lookup "status" d = some (.str "downloading") then do
    let pct ← ((List.lookup "_percent_str" d).getD (.str "")).stripMethod
    let spd ← ((List.lookup "_speed_str" d).getD (.str "")).stripMethod
    let eta ← ((List.lookup "_eta_str" d).getD (.str "")).stripMethod
    .ok (.write (dlLine pct spd eta))
  else if List.lookup "status" d = some (.str "finished") then
    .ok (.writeLn "\nDownload finished, post-processing...")
  else
    .ok .silent

/-- The dictionary value stored under key `k`, when present, is a string —
the shape the engine contract promises for the three display fields. -/
def strOrAbsent (d : PyDict) (k : String) : Prop :=
  ∀ v, List.lookup k d = some v → ∃ s, v = PyVal.str s

/-! ### Summary Printer and exit codes (`main`) -/

/-- The result descriptor returned by the engine, as consumed by the
summary code: an info dictionary with the three fields `main` reads.
`itype` is the value of the `_type` key; `entries` holds the playlist
items, each possibly absent (skipped by `ignore-errors`). -/
inductive InfoDict where
  | mk (itype : Option String) (title : Option String)
       (entries : List (Option InfoDict))

/-- The `_type` field of an info dictionary. -/
def InfoDict.itype : InfoDict → Option String
  | .mk t _ _ => t

/-- The `title` field of an info dictionary. -/
def InfoDict.title : InfoDict → Option String
  | .mk _ t _ => t

/-- The `entries` field of an info dictionary. -/
def InfoDict.entries : InfoDict → List (Option InfoDict)
  | .mk _ _ es => es

/-- The nested helper `summarize` of `main`:
`"Saved: {title}"` and the engine-resolved path on the next line.
`pf` stands for `ydl.prepare_filename`, owned by the engine. -/
def summarize (pf : InfoDict → String) (entry : InfoDict) : String :=
  "Saved: " ++ (entry.title.getD "Unknown Title") ++ "\n -> " ++ pf entry

/-- The summary block at the end of `main`, as the list of strings handed
to `print` (each `print` call appends one newline to its payload).
`none` reports that nothing was downloaded; a playlist dictionary yields a
header line then one block per present entry (the loop skips falsy
entries); any other dictionary is a single item. -/
def printSummary (pf : InfoDict → String) (info : Option InfoDict) :
    List String :=
  match info with
  | none => ["Nothing was downloaded."]
  | some i =>
    if i.itype = some "playlist" then
      ("\nPlaylist: " ++ (i.title.getD "(unknown)")) ::
        (i.entries.filterMap id).map (summarize pf)
    else
      ["\n" ++ summarize pf i]

/-- Outcome of the single engine invocation in `main`: a result descriptor
(possibly absent), a `yt_dlp.utils.DownloadError`, or any other
exception. -/
inductive EngineOutcome where
  | ok (info : Option InfoDict)
  | downloadError (msg : String)
  | unexpectedError (msg : String)

/-- The body of `main` after option building: exit code and the lines sent
to standard error.  A normal return from `main` ends the process with
status 0. -/
def runMain (outcome : EngineOutcome) : Int × List String :=
  match outcome with
  | .ok _ => (0, [])
  | .downloadError m => (1, ["\nDownloadError: " ++ m])
  | .unexpectedError m => (1, ["\nUnexpected error: " ++ m])

/-- The message printed by the module-level import guard when `yt_dlp`
cannot be imported. -/
def installMsg : String :=
  "Error: yt-dlp is not installed. Install with:\n  pip install -U yt-dlp\nor (macOS) brew install yt-dlp"

/-- The whole process: the module-level `try: import yt_dlp` guard runs
before `parse_args` and exits with status 1 and the installation message
when the engine is unavailable; otherwise `main` runs and classifies the
engine outcome. -/
def runProgram (ytdlpInstalled : Bool) (outcome : EngineOutcome) :
    Int × List String :=
  if ytdlpInstalled then runMain outcome
  else (1, [installMsg])

/-! ### Theorems about the Configuration Synthesizer -/

/-- C1: in video mode, with a positive height cap `r` the format expression
is the capped three-tier string with `r` substituted verbatim, with no cap
it is the exact no-cap string, and the merge container is `mp4` in both
cases. -/
theorem video_format_correct (home : String) (a : Args)
    (hv : a.audio = false) :
    (∀ r : Int, a.resolution = some r → 0 < r →
      (build_opts home a).format =
        "bestvideo[ext=mp4][height<=" ++ toString r ++
          "]+bestaudio[ext=m4a]/best[ext=mp4]/best") ∧
    (a.resolution = none →
      (build_opts home a).format =
        "bestvideo[ext=mp4]+bestaudio[ext=m4a]/best[ext=mp4]/best") ∧
    (build_opts home a).merge_output_format = some "mp4" := by
  refine ⟨?_, ?_, ?_⟩
  · intro r hr hrpos
    simp [build_opts, hv, hr, apply_ite EngineConfig.format,
      show r ≠ 0 by omega]
  · intro hr
    simp [build_opts, hv, hr, apply_ite EngineConfig.format]
  · simp [build_opts, hv, apply_ite EngineConfig.merge_output_format]

/-- Closed instance of `video_format_correct` at resolution 720 and at no
resolution. -/
theorem video_format_correct_witness :
    (build_opts "/home/u" { url := "u", resolution := some 720 }).format =
      "bestvideo[ext=mp4][height<=720]+bestaudio[ext=m4a]/best[ext=mp4]/best" ∧
    (build_opts "/home/u" { url := "u" }).format =
      "bestvideo[ext=mp4]+bestaudio[ext=m4a]/best[ext=mp4]/best" ∧
    (build_opts "/home/u" { url := "u" }).merge_output_format = some "mp4" :=
  ⟨(video_format_correct "/home/u" { url := "u", resolution := some 720 }
      rfl).1 720 rfl (by decide),
   (video_format_correct "/home/u" { url := "u" } rfl).2.1 rfl,
   (video_format_correct "/home/u" { url := "u" } rfl).2.2⟩

/-- C2: in audio mode the format expression is the literal
`bestaudio/best` and the post-processing list is non-empty, starting with
the audio-extraction step carrying the configured codec and the quality
stringified (so the sentinel 0 becomes the string 0), whatever the other
flags. -/
theorem audio_format_correct (home : String) (a : Args)
    (ha : a.audio = true) :
    (build_opts home a).format = "bestaudio/best" ∧
    (build_opts home a).postprocessors.head? =
      some (.ffmpegExtractAudio a.audio_format (toString a.audio_quality)) ∧
    (build_opts home a).postprocessors ≠ [] := by
  by_cases hm : a.embed_meta <;> by_cases ht : a.embed_thumb <;>
    simp [build_opts, ha, hm, ht, apply_ite EngineConfig.format,
      apply_ite EngineConfig.postprocessors]

/-- Closed instance of `audio_format_correct`, with the quality sentinel 0
and both embed flags set. -/
theorem audio_format_correct_witness :
    (build_opts "/home/u" { url := "u", audio := true, audio_format := "flac",
                            embed_meta := true,
                            embed_thumb := true }).format = "bestaudio/best" ∧
    (build_opts "/home/u" { url := "u", audio := true, audio_format := "flac",
                            embed_meta := true,
                            embed_thumb := true }).postprocessors.head? =
      some (.ffmpegExtractAudio "flac" "0") :=
  ⟨(audio_format_correct "/home/u" _ rfl).1,
   (audio_format_correct "/home/u" _ rfl).2.1⟩

/-- C3: the post-processing list is exactly the concatenation of the
audio-extraction step (audio mode only), the metadata step (iff the
embed-metadata flag) and the thumbnail step (iff the embed-thumbnail
flag), in that order, in both modes; each step is present exactly when its
flag is set. -/
theorem postprocessor_order (home : String) (a : Args) :
    (build_opts home a).postprocessors =
      (if a.audio then
        [Postprocessor.ffmpegExtractAudio a.audio_format
          (toString a.audio_quality)] else [])
      ++ (if a.embed_meta then [Postprocessor.ffmpegMetadata] else [])
      ++ (if a.embed_thumb then [Postprocessor.embedThumbnail] else []) ∧
    (Postprocessor.ffmpegMetadata ∈ (build_opts home a).postprocessors ↔
      a.embed_meta = true) ∧
    (Postprocessor.embedThumbnail ∈ (build_opts home a).postprocessors ↔
      a.embed_thumb = true) := by
  by_cases hA : a.audio <;> by_cases hm : a.embed_meta <;>
    by_cases ht : a.embed_thumb <;>
    simp [build_opts, hA, hm, ht, apply_ite EngineConfig.postprocessors]

/-- C4: the three engine retry knobs all receive the single retry option
and the socket timeout is copied directly, in both modes and for all other
flags. -/
theorem retry_fanout (home : String) (a : Args) :
    (build_opts home a).retries = a.retries ∧
    (build_opts home a).file_access_retries = a.retries ∧
    (build_opts home a).fragment_retries = a.retries ∧
    (build_opts home a).socket_timeout = a.timeout :=
  ⟨rfl, rfl, rfl, rfl⟩

/-- C5: the output template is the home-expanded output directory joined
with the filename template, and the base toggles are copied from the
options: the engine noplaylist field is the negation of the allow-playlist
flag (playlists are expanded exactly when the flag is set), filename
restriction from safe-names, error tolerance from ignore-errors,
concurrency from the concurrent count, and quiet and no-warnings both from
the single quiet flag. -/
theorem base_fields_copied (home : String) (a : Args) :
    (build_opts home a).outtmpl =
      joinPath (expanduser home a.output) a.template ∧
    (build_opts home a).noplaylist = !a.allow_playlist ∧
    (build_opts home a).restrictfilenames = a.safe_names ∧
    (build_opts home a).ignoreerrors = a.ignore_errors ∧
    (build_opts home a).concurrent_fragment_downloads = a.concurrent ∧
    (build_opts home a).quiet = a.quiet ∧
    (build_opts home a).no_warnings = a.quiet := by
  by_cases hA : a.audio <;> by_cases hm : a.embed_meta <;>
    by_cases ht : a.embed_thumb <;>
    simp [build_opts, hA, hm, ht, apply_ite EngineConfig.outtmpl,
      apply_ite EngineConfig.noplaylist,
      apply_ite EngineConfig.restrictfilenames,
      apply_ite EngineConfig.ignoreerrors,
      apply_ite EngineConfig.concurrent_fragment_downloads,
      apply_ite EngineConfig.quiet, apply_ite EngineConfig.no_warnings]

/-- C10: certificate checking is disabled unconditionally — the
`nocheckcertificate` field is true for every option vector, in both modes;
no option can switch it off. -/
theorem nocheckcertificate_always (home : String) (a : Args) :
    (build_opts home a).nocheckcertificate = true := by
  by_cases hA : a.audio <;> by_cases hm : a.embed_meta <;>
    by_cases ht : a.embed_thumb <;>
    simp [build_opts, hA, hm, ht, apply_ite EngineConfig.nocheckcertificate]

/-! ### Theorems about the Progress Reporter -/

/-- Helper: the head of a `dropWhile` residue never satisfies the dropped
predicate. -/
theorem head?_dropWhile_eq_false {p : Char → Bool} {l : List Char} {a : Char}
    (h : (l.dropWhile p).head? = some a) : p a = false := by
  induction l with
  | nil => simp [List.dropWhile] at h
  | cons x xs ih =>
    rw [List.dropWhile_cons] at h
    by_cases hx : p x
    · rw [if_pos hx] at h; exact ih h
    · rw [if_neg hx] at h
      simp at h
      subst h
      simpa using hx

/-- Helper: the last character of a stripped string is never whitespace. -/
theorem stripList_getLast?_not_ws {cs : List Char} {c : Char}
    (h : (stripList cs).getLast? = some c) : c.isWhitespace = false := by
  unfold stripList at h
  rw [List.getLast?_reverse] at h
  exact head?_dropWhile_eq_false h

/-- Helper: right alignment in a positive width never yields the empty
character list. -/
theorem rjustList_ne_nil (w : Nat) (hw : 0 < w) (cs : List Char) :
    rjustList w cs ≠ [] := by
  unfold rjustList
  intro h
  rcases List.append_eq_nil.mp h with ⟨h1, h2⟩
  subst h2
  simp at h1
  omega

/-- Helper: a stripped field right-aligned in a status column never ends
with a newline character (the padding is on the left and a stripped string
ends with non-whitespace). -/
theorem rjustList_strip_getLast?_ne_nl (w : Nat) (cs : List Char) :
    (rjustList w (stripList cs)).getLast? ≠ some '\n' := by
  unfold rjustList
  rcases eq_or_ne (stripList cs) [] with h | h
  · rw [h]
    simp [List.getLast?_replicate]
  · rw [List.getLast?_append_of_ne_nil _ h]
    intro hc
    have hws := stripList_getLast?_not_ws hc
    simp at hws

/-- Helper: the rendered status line begins with a carriage return. -/
theorem dlLine_data_head? (pct spd eta : String) :
    (dlLine pct spd eta).data.head? = some '\r' := by
  have h : "\rDownloading: ".data = '\r' :: "Downloading: ".data := rfl
  simp [dlLine, String.data_append, h]

/-- Helper: a status line whose ETA column holds a stripped field does not
end with a newline character. -/
theorem dlLine_strip_getLast?_ne_nl (pct spd es : String) :
    (dlLine pct spd (pstrip es)).data.getLast? ≠ some '\n' := by
  have hne : (rjust 6 (pstrip es)).data ≠ [] :=
    rjustList_ne_nil 6 (by decide) _
  simp only [dlLine, String.data_append]
  rw [List.getLast?_append_of_ne_nil _ hne]
  exact rjustList_strip_getLast?_ne_nl 6 es.data

/-- C6: a `downloading` event (with the display fields strings, or absent
and defaulted to the empty string) makes the hook write exactly one
flushed line that starts with a carriage return, holds the three fields
right-aligned to widths 6, 8 and 6, and does not end in a newline; a
`finished` event writes a newline followed by the fixed transition
message; every other status writes nothing. -/
theorem progress_hook_output (d : PyDict) :
    (List.lookup "status" d = some (.str "downloading") →
      ∀ ps ss es : String,
        (List.lookup "_percent_str" d).getD (.str "") = .str ps →
        (List.lookup "_speed_str" d).getD (.str "") = .str ss →
        (List.lookup "_eta_str" d).getD (.str "") = .str es →
        progress_hook d =
          .ok (.write (dlLine (pstrip ps) (pstrip ss) (pstrip es))) ∧
        (dlLine (pstrip ps) (pstrip ss) (pstrip es)).data.head? = some '\r' ∧
        (dlLine (pstrip ps) (pstrip ss) (pstrip es)).data.getLast? ≠
          some '\n') ∧
    (List.lookup "status" d = some (.str "finished") →
      progress_hook d =
        .ok (.writeLn "\nDownload finished, post-processing...")) ∧
    (List.lookup "status" d ≠ some (.str "downloading") →
      List.lookup "status" d ≠ some (.str "finished") →
      progress_hook d = .ok .silent) := by
  refine ⟨?_, ?_, ?_⟩
  · intro h1 ps ss es hp hs he
    refine ⟨?_, dlLine_data_head? _ _ _, dlLine_strip_getLast?_ne_nl _ _ _⟩
    simp [progress_hook, h1, hp, hs, he, PyVal.stripMethod, Bind.bind,
      Except.bind]
  · intro h2
    have h1 : List.lookup "status" d ≠ some (.str "downloading") := by
      rw [h2]; simp
    simp [progress_hook, h1, h2]
  · intro h1 h2
    simp [progress_hook, h1, h2]

/-- Closed instance of `progress_hook_output` at the example event of the
specification. -/
theorem progress_hook_output_witness :
    progress_hook [("status", PyVal.str "downloading"),
                   ("_percent_str", PyVal.str "45.2%"),
                   ("_speed_str", PyVal.str "1.2MiB/s"),
                   ("_eta_str", PyVal.str "00:30")] =
      .ok (.write (dlLine (pstrip "45.2%") (pstrip "1.2MiB/s")
        (pstrip "00:30"))) :=
  ((progress_hook_output
      [("status", PyVal.str "downloading"),
       ("_percent_str", PyVal.str "45.2%"),
       ("_speed_str", PyVal.str "1.2MiB/s"),
       ("_eta_str", PyVal.str "00:30")]).1 rfl "45.2%" "1.2MiB/s" "00:30"
    rfl rfl rfl).1

/-- Counterexample to C7 as stated: an event whose percent field is a
non-string makes the hook raise (Python `.strip()` on a non-string raises
`AttributeError`), so the callback does not tolerate non-string display
fields. -/
theorem progress_hook_raises_on_nonstring :
    progress_hook [("status", PyVal.str "downloading"),
                   ("_percent_str", PyVal.int 45)] =
      .error "AttributeError: int object has no attribute strip" := by
  rfl

/-- Helper: under the engine contract shape for one field, the `.strip()`
call succeeds, a missing key being defaulted to the empty string first. -/
theorem strip_ok_of_strOrAbsent (d : PyDict) (k : String)
    (h : strOrAbsent d k) :
    ∃ s, ((List.lookup k d).getD (PyVal.str "")).stripMethod =
      Except.ok (pstrip s) := by
  cases hl : List.lookup k d with
  | none => exact ⟨"", rfl⟩
  | some v =>
    obtain ⟨s, rfl⟩ := h v hl
    exact ⟨s, rfl⟩

/-- C7 amended: for every event dictionary whose percent, speed and ETA
values, where present, are strings (missing keys are defaulted to the
empty string), the hook never raises: it returns a normal output for
every status value. -/
theorem progress_hook_no_raise (d : PyDict)
    (hp : strOrAbsent d "_percent_str")
    (hs : strOrAbsent d "_speed_str")
    (he : strOrAbsent d "_eta_str") :
    ∃ out, progress_hook d = .ok out := by
  by_cases h1 : List.lookup "status" d = some (PyVal.str "downloading")
  · obtain ⟨p, hP⟩ := strip_ok_of_strOrAbsent d _ hp
    obtain ⟨s, hS⟩ := strip_ok_of_strOrAbsent d _ hs
    obtain ⟨e, hE⟩ := strip_ok_of_strOrAbsent d _ he
    exact ⟨.write (dlLine (pstrip p) (pstrip s) (pstrip e)),
      by simp [progress_hook, h1, hP, hS, hE, Bind.bind, Except.bind]⟩
  · by_cases h2 : List.lookup "status" d = some (PyVal.str "finished")
    · exact ⟨.writeLn "\nDownload finished, post-processing...",
        by simp [progress_hook, h1, h2]⟩
    · exact ⟨.silent, by simp [progress_hook, h1, h2]⟩

/-- Closed instance of `progress_hook_no_raise`: an event with a missing
speed and ETA field and a string percent field is handled without
raising. -/
theorem progress_hook_no_raise_witness :
    ∃ out,
      progress_hook [("status", PyVal.str "downloading"),
                     ("_percent_str", PyVal.str " 45.2% ")] =
        .ok out :=
  progress_hook_no_raise _
    (fun v hv => by
      simp [List.lookup] at hv
      exact ⟨" 45.2% ", hv.symm⟩)
    (fun v hv => by simp [List.lookup] at hv)
    (fun v hv => by simp [List.lookup] at hv)

/-! ### Theorems about the Summary Printer and the exit codes -/

/-- C8: an absent result descriptor prints the single nothing-downloaded
line; a non-playlist descriptor prints one Saved block with the
engine-resolved path; a playlist descriptor prints one header line naming
the playlist title (a placeholder when untitled) and then one block per
present entry, absent entries printing nothing — in particular three
entries with one absent yield one header line and exactly two blocks. -/
theorem summary_shapes (pf : InfoDict → String) (i : InfoDict)
    (t : Option String) (e1 e3 : InfoDict) :
    printSummary pf none = ["Nothing was downloaded."] ∧
    (i.itype ≠ some "playlist" →
      printSummary pf (some i) =
        ["\n" ++ "Saved: " ++ (i.title.getD "Unknown Title") ++ "\n -> " ++
          pf i]) ∧
    (i.itype = some "playlist" →
      printSummary pf (some i) =
        ("\nPlaylist: " ++ (i.title.getD "(unknown)")) ::
          (i.entries.filterMap id).map (summarize pf)) ∧
    printSummary pf
        (some (.mk (some "playlist") t [some e1, none, some e3])) =
      [("\nPlaylist: " ++ (t.getD "(unknown)")),
        summarize pf e1, summarize pf e3] := by
  refine ⟨rfl, ?_, ?_, ?_⟩
  · intro h
    simp [printSummary, h, summarize, ← String.append_assoc]
  · intro h
    simp [printSummary, h]
  · simp [printSummary, InfoDict.itype, InfoDict.title, InfoDict.entries]

/-- Closed instance of `summary_shapes`: a playlist of three entries, the
middle one skipped, and an untitled single item. -/
theorem summary_shapes_witness :
    printSummary (fun _ => "/d/a.mp3")
        (some (.mk (some "playlist") (some "Mix")
          [some (.mk none (some "One") []), none,
            some (.mk none (some "Three") [])])) =
      ["\nPlaylist: " ++ "Mix",
        summarize (fun _ => "/d/a.mp3") (.mk none (some "One") []),
        summarize (fun _ => "/d/a.mp3") (.mk none (some "Three") [])] ∧
    printSummary (fun _ => "/d/a.mp3") (some (.mk none none [])) =
      ["\n" ++ "Saved: " ++ "Unknown Title" ++ "\n -> " ++ "/d/a.mp3"] :=
  ⟨(summary_shapes (fun _ => "/d/a.mp3") (.mk none none []) (some "Mix")
      (.mk none (some "One") []) (.mk none (some "Three") [])).2.2.2,
   (summary_shapes (fun _ => "/d/a.mp3") (.mk none none []) (some "Mix")
      (.mk none (some "One") []) (.mk none (some "Three") [])).2.1
     (by simp [InfoDict.itype])⟩

/-- C9: the process exits with status 0 exactly on success, an absent
result descriptor included; it exits with status 1 when the engine
reports a download error, when any other failure arises during the engine
call, and when the engine is missing at startup — the last case printing
the installation message. -/
theorem exit_codes (info : Option InfoDict) (dm um : String)
    (outcome : EngineOutcome) :
    (runProgram true (.ok info)).1 = 0 ∧
    (runProgram true (.downloadError dm)).1 = 1 ∧
    (runProgram true (.unexpectedError um)).1 = 1 ∧
    (runProgram false outcome).1 = 1 ∧
    (runProgram false outcome).2 = [installMsg] :=
  ⟨rfl, rfl, rfl, rfl, rfl⟩

end Ytdl
